import Mathlib

/-!
Verification of the MQTT-to-QuestDB ingestion pipeline
(`src/docker/QuestDB/subscriber/subscriber.py`) and of the latest-reading
query endpoint (`src/docker/QuestDB/app/main.py`), shallowly embedded in
Lean.  Python/JSON numbers (ints and floats alike) are modelled as
rationals; Python exceptions are modelled with `Except`.
-/

/-- A decoded Python value as produced by `json.loads`: `None`/null,
booleans, numbers, strings, lists and dicts. -/
inductive PyVal where
  | none
  | bool (b : Bool)
  | num (q : ℚ)
  | str (s : String)
  | list (xs : List PyVal)
  | dict (fields : List (String × PyVal))

/-- The Python exceptions the embedded subscriber code can raise. -/
inductive PyErr where
  | typeError
  | valueError
  | attributeError
  deriving DecidableEq

/-- Dict field access: the value stored under key `k`, or `None` when the
key is absent (JSON null is stored as `PyVal.none`, so an absent key and a
null value are indistinguishable, exactly as with `dict.get`). -/
def mGet (fs : List (String × PyVal)) (k : String) : PyVal :=
  match fs.lookup k with
  | some v => v
  | Option.none => PyVal.none

/-- Python `m.get(k)`: attribute access on a non-dict receiver raises
`AttributeError`. -/
def pyGet : PyVal → String → Except PyErr PyVal
  | .dict fs, k => .ok (mGet fs k)
  | _, _ => .error .attributeError

/-- Python `payload.get(k, d)` with an explicit default `d`: the default is
used only when the key is absent. -/
def pyGetD : PyVal → String → PyVal → Except PyErr PyVal
  | .dict fs, k, d =>
      .ok (match fs.lookup k with
           | some v => v
           | Option.none => d)
  | _, _, _ => .error .attributeError

/-- Numeric value of a list of decimal digit characters. -/
def digitsVal (cs : List Char) : ℕ :=
  cs.foldl (fun a c => a * 10 + (c.toNat - 48)) 0

/-- Parse an unsigned decimal literal (digits with an optional fractional
part, at least one digit overall), the fragment of Python float-literal
syntax this system exercises. -/
def parseUnsigned (cs : List Char) : Option ℚ :=
  match cs.splitOn '.' with
  | [ip] =>
      if ip ≠ [] ∧ ip.all Char.isDigit then some (digitsVal ip : ℚ) else Option.none
  | [ip, fp] =>
      if (ip ≠ [] ∨ fp ≠ []) ∧ ip.all Char.isDigit ∧ fp.all Char.isDigit then
        some ((digitsVal ip : ℚ) + (digitsVal fp : ℚ) / 10 ^ fp.length)
      else Option.none
  | _ => Option.none

/-- Python `float(s)` on a string: optional sign then a decimal literal.
Exponents, `inf`/`nan` and surrounding whitespace are not exercised by this
system; here they fail the parse (a `ValueError`, as for any non-numeric
string). -/
def pyParseFloat (s : String) : Option ℚ :=
  match s.toList with
  | '+' :: rest => parseUnsigned rest
  | '-' :: rest => (parseUnsigned rest).map (fun q => -q)
  | cs => parseUnsigned cs

/-- Python `float(v)` coercion: numbers pass through, booleans become 0/1,
strings are parsed (`ValueError` on failure), anything else is a
`TypeError`. -/
def pyFloat : PyVal → Except PyErr ℚ
  | .num q => .ok q
  | .bool b => .ok (if b then 1 else 0)
  | .str s =>
      match pyParseFloat s with
      | some q => .ok q
      | Option.none => .error .valueError
  | _ => .error .typeError

/-- Python `v * n` for a non-negative integer `n` (the source only computes
`m.get("timestamp") * 1000`): numbers multiply, strings and lists
replicate, booleans coerce to 0/1; `None` and dicts raise `TypeError`. -/
def pyMulNat : PyVal → ℕ → Except PyErr PyVal
  | .num q, n => .ok (.num (q * n))
  | .str s, n => .ok (.str (String.join (List.replicate n s)))
  | .list xs, n => .ok (.list (List.flatten (List.replicate n xs)))
  | .bool b, n => .ok (.num ((if b then (1 : ℚ) else 0) * n))
  | _, _ => .error .typeError

/-- The five positional topic dimensions (`namespace` is a Lean keyword, so
the first field is named `nspace`). -/
structure Dims where
  nspace : Option String
  group : Option String
  type : Option String
  node : Option String
  device : Option String

/-- Python `topic.split("/")` for the single-character separator. -/
def splitSlash (s : String) : List String :=
  (s.toList.splitOn '/').map (fun cs => String.mk cs)

/-- Topic Decoder (subscriber.py lines 52-57):
`parts[i] if len(parts) > i else None` for the five dimensions. -/
def decodeTopic (topic : String) : Dims :=
  let parts := splitSlash topic
  { nspace := if h : 0 < parts.length then some (parts.get ⟨0, h⟩) else Option.none
    group := if h : 1 < parts.length then some (parts.get ⟨1, h⟩) else Option.none
    type := if h : 2 < parts.length then some (parts.get ⟨2, h⟩) else Option.none
    node := if h : 3 < parts.length then some (parts.get ⟨3, h⟩) else Option.none
    device := if h : 4 < parts.length then some (parts.get ⟨4, h⟩) else Option.none }

/-- The five labels of `Dims` in positional order. -/
def dimsList (d : Dims) : List (Option String) :=
  [d.nspace, d.group, d.type, d.node, d.device]

/-- One tuple appended to `rows` (subscriber.py lines 61-71). -/
structure Row where
  nspace : Option String
  group_name : Option String
  type : Option String
  node : Option String
  device : Option String
  metric_name : PyVal
  metric_alias : PyVal
  value : Option ℚ
  ts : PyVal

/-- Build the tuple for one metric `m` (lines 61-71).  Field expressions are
evaluated left to right; `float()` on a non-coercible value raises
`ValueError`, `m.get("timestamp") * 1000` on `None` raises `TypeError`, and
`m.get` on a non-dict raises `AttributeError`. -/
def buildRow (d : Dims) (m : PyVal) : Except PyErr Row :=
  match pyGet m "name", pyGet m "alias", pyGet m "value", pyGet m "timestamp" with
  | .ok name, .ok aliasV, .ok rawV, .ok rawTs =>
      let vres : Except PyErr (Option ℚ) :=
        match rawV with
        | .none => .ok Option.none
        | v =>
            match pyFloat v with
            | .ok q => .ok (some q)
            | .error e => .error e
      match vres with
      | .error e => .error e
      | .ok value =>
          match pyMulNat rawTs 1000 with
          | .error e => .error e
          | .ok ts =>
              .ok { nspace := d.nspace, group_name := d.group, type := d.type,
                    node := d.node, device := d.device,
                    metric_name := name, metric_alias := aliasV,
                    value := value, ts := ts }
  | .error e, _, _, _ => .error e
  | _, .error e, _, _ => .error e
  | _, _, .error e, _ => .error e
  | _, _, _, .error e => .error e

/-- The row-building loop (lines 59-71): rows are appended one metric at a
time, and the first exception aborts the whole loop. -/
def buildRows (d : Dims) : List PyVal → Except PyErr (List Row)
  | [] => .ok []
  | m :: rest =>
      match buildRow d m with
      | .error e => .error e
      | .ok r =>
          match buildRows d rest with
          | .error e => .error e
          | .ok rs => .ok (r :: rs)

/-- Python `for m in metrics`: lists yield their elements, strings their
one-character substrings, dicts their keys; other values raise
`TypeError`. -/
def pyIter : PyVal → Except PyErr (List PyVal)
  | .list xs => .ok xs
  | .str s => .ok (s.toList.map (fun c => PyVal.str (String.mk [c])))
  | .dict fs => .ok (fs.map (fun kv => PyVal.str kv.1))
  | _ => .error .typeError

/-- `insert_metrics(topic, metrics)` (lines 51-84): decode the topic, build
all rows, short-circuit on an empty row list, otherwise open one store
connection and insert.  The result carries the rows handed to
`execute_values` and the number of store connections opened. -/
def insert_metrics (topic : String) (metrics : PyVal) : Except PyErr (List Row × ℕ) :=
  let d := decodeTopic topic
  match pyIter metrics with
  | .error e => .error e
  | .ok ms =>
      match buildRows d ms with
      | .error e => .error e
      | .ok rows => if rows.isEmpty then .ok (rows, 0) else .ok (rows, 1)

/-- Whether an `insert_metrics` call completed (true) or raised (false). -/
def isInserted : Except PyErr (List Row × ℕ) → Bool
  | .ok _ => true
  | .error _ => false

/-- Observable outcome of `on_message` for one message: either the rows
inserted together with the connection count, or a caught-and-logged
exception. -/
inductive Outcome where
  | processed (rows : List Row) (conns : ℕ)
  | caught (e : PyErr)

/-- `on_message` (lines 91-98), applied to the already-JSON-decoded payload:
`payload.get("metrics", [])` then `insert_metrics`; every exception is
caught and logged, and the loop continues. -/
def on_message (topic : String) (payload : PyVal) : Outcome :=
  match pyGetD payload "metrics" (.list []) with
  | .error e => .caught e
  | .ok metrics =>
      match insert_metrics topic metrics with
      | .error e => .caught e
      | .ok (rows, c) => .processed rows c

/-- Outcome of one connect-and-create attempt inside `create_table`
(subscriber.py lines 24-41): the attempt succeeds, or
`psycopg2.OperationalError` is raised (store unreachable), or some other
exception is raised (e.g. a SQL `ProgrammingError`). -/
inductive AttemptResult where
  | success
  | opError
  | otherError
  deriving DecidableEq

/-- Observable events of a `create_table` run: a connection attempt, or a
`time.sleep(delay)`. -/
inductive CtEvent where
  | connectAttempt
  | sleep (d : ℕ)
  deriving DecidableEq

/-- How a `create_table` run terminates: the normal return after the table
is ready, the final `raise Exception(...)` after the loop exhausts, or an
exception other than `OperationalError` propagating out of the loop. -/
inductive CtResult where
  | tableReady
  | fatalError
  | propagated
  deriving DecidableEq

/-- The `while attempt < retries` loop of `create_table` (lines 22-46),
parametrised by an oracle giving the outcome of the k-th attempt.  On
`OperationalError` the attempt counter increases and the loop sleeps for
`delay` before retrying; any other exception leaves the loop at once. -/
def create_table_loop (outcomes : ℕ → AttemptResult) (delay : ℕ) :
    (attempt remaining : ℕ) → List CtEvent × CtResult
  | _, 0 => ([], .fatalError)
  | attempt, remaining + 1 =>
      match outcomes attempt with
      | .success => ([.connectAttempt], .tableReady)
      | .otherError => ([.connectAttempt], .propagated)
      | .opError =>
          let rest := create_table_loop outcomes delay (attempt + 1) remaining
          (.connectAttempt :: .sleep delay :: rest.1, rest.2)

/-- `create_table(retries=10, delay=5)` (lines 21-47): the attempt counter
starts at 0 and the loop runs while `attempt < retries`. -/
def create_table (outcomes : ℕ → AttemptResult) (retries delay : ℕ) :
    List CtEvent × CtResult :=
  create_table_loop outcomes delay 0 retries

/-- Number of store connection attempts in a `create_table` trace. -/
def countConnects (t : List CtEvent) : ℕ :=
  t.countP (fun e => decide (e = CtEvent.connectAttempt))

/-- What the `fetchrow` call of the latest-reading query observes
(main.py line 70): the `Temp_data` table may not exist
(`asyncpg.exceptions.UndefinedTableError`), or the `SELECT ... ORDER BY
Time DESC LIMIT 1` returns at most one row. -/
inductive FetchResult where
  | undefinedTable
  | row (r : Option ℚ)

/-- The exceptions flowing through the handler of `/temperatur`: a raised
`fastapi.HTTPException`, the `UndefinedTableError`, or some other database
error carrying a message. -/
inductive HandlerExc where
  | httpExc (status : ℕ) (detail : String)
  | undefinedTableExc
  | dbExc (msg : String)

/-- Python `str(e)` for the exceptions above (Starlette renders an
`HTTPException` as "status: detail"). -/
def excStr : HandlerExc → String
  | .httpExc code d => toString code ++ ": " ++ d
  | .undefinedTableExc => "UndefinedTableError"
  | .dbExc m => m

/-- HTTP response the caller of `/temperatur` observes. -/
inductive HttpResponse where
  | ok (temp : ℚ)
  | err (status : ℕ) (detail : String)

/-- The try-block body of `get_latest_temperature` (main.py lines 67-78):
fetch the latest row; when no row comes back, `raise HTTPException(404)`;
otherwise return the temperature. -/
def temperatur_body : FetchResult → Except HandlerExc ℚ
  | .undefinedTable => .error .undefinedTableExc
  | .row Option.none => .error (.httpExc 404 "No data found in Temp_data table.")
  | .row (some t) => .ok t

/-- `get_latest_temperature` (main.py lines 62-88) with its exception
handlers in source order: `except UndefinedTableError` first, then the
generic `except Exception` — which also catches the `HTTPException(404)`
raised inside the try block, because `HTTPException` subclasses
`Exception`, and re-raises it as a 500. -/
def get_latest_temperature (f : FetchResult) : HttpResponse :=
  match temperatur_body f with
  | .ok t => .ok t
  | .error .undefinedTableExc =>
      .err 500 "The table Temp_data does not exist in QuestDB. Please create it."
  | .error e => .err 500 ("Internal Server Error: " ++ excStr e)

/-- Topic of the end-to-end scenario. -/
def exTopic : String := "groupA/line1/press/nodeX/dev9"

/-- The single metric of the end-to-end scenario. -/
def exMetric : PyVal :=
  .dict [("name", .str "temp"), ("alias", .num 3),
         ("value", .num 21.7), ("timestamp", .num 1700000000)]

/-- Message body of the end-to-end scenario. -/
def exPayload : PyVal := .dict [("metrics", .list [exMetric])]

/-- The stored row the end-to-end scenario should produce. -/
def exRow : Row :=
  { nspace := some "groupA", group_name := some "line1", type := some "press",
    node := some "nodeX", device := some "dev9",
    metric_name := .str "temp", metric_alias := .num 3,
    value := some (21.7 : ℚ), ts := .num 1700000000000 }

/-- A message whose second metric has a non-numeric `value`, while the first
metric is well formed. -/
def mixedPayload : PyVal :=
  .dict [("metrics", .list [
    .dict [("name", .str "temp"), ("alias", .num 1),
           ("value", .num 5), ("timestamp", .num 10)],
    .dict [("name", .str "hum"), ("alias", .num 2),
           ("value", .str "abc"), ("timestamp", .num 10)]])]

/-- Topic dimensions with every label absent, used as a concrete input. -/
def wDims : Dims :=
  ⟨Option.none, Option.none, Option.none, Option.none, Option.none⟩

/-- The row built from the metric `{"timestamp": 2}` under `wDims`. -/
def wRowTs : Row :=
  { nspace := Option.none, group_name := Option.none, type := Option.none,
    node := Option.none, device := Option.none, metric_name := PyVal.none,
    metric_alias := PyVal.none, value := Option.none, ts := .num 2000 }

/-- The row built from the metric `{"value": "12.5", "timestamp": 1}` under
`wDims`. -/
def wRow6 : Row :=
  { nspace := Option.none, group_name := Option.none, type := Option.none,
    node := Option.none, device := Option.none, metric_name := PyVal.none,
    metric_alias := PyVal.none, value := some (12.5 : ℚ), ts := .num 1000 }

/-- Claim C2: for every topic, each of the five labels produced by the Topic
Decoder equals the segment at the same position of `topic.split("/")`, and
is absent exactly when the topic has no segment at that position; the
decoder is total, so no error is raised. -/
theorem topic_decoder_positional (topic : String) (i : ℕ) (hi : i < 5) :
    (dimsList (decodeTopic topic))[i]? = some ((splitSlash topic)[i]?) := by
  have key : ∀ (l : List String) (j : ℕ),
      (if h : j < l.length then some (l.get ⟨j, h⟩) else Option.none) = l[j]? := by
    intro l j
    split
    · next h => exact (List.getElem?_eq_getElem h).symm
    · next h => exact (List.getElem?_eq_none (Nat.le_of_not_lt h)).symm
  interval_cases i <;>
    simp only [dimsList, decodeTopic, List.getElem?_cons_zero, List.getElem?_cons_succ,
      Option.some.injEq] <;>
    exact key _ _

/-- Witness for C2 at the two-segment topic "groupA/line1" and position 3:
the node label is absent. -/
theorem topic_decoder_positional_witness :
    (dimsList (decodeTopic "groupA/line1"))[3]? = some Option.none :=
  (topic_decoder_positional "groupA/line1" 3 (by decide)).trans rfl

/-- Claim C5: a dict payload without a `metrics` key yields the empty metric
sequence, zero rows, zero store connections and no exception. -/
theorem missing_metrics_yields_empty (topic : String) (fs : List (String × PyVal))
    (h : fs.lookup "metrics" = Option.none) :
    on_message topic (.dict fs) = .processed [] 0 := by
  simp [on_message, pyGetD, h, insert_metrics, pyIter, buildRows]

/-- Witness for C5 at the empty dict payload. -/
theorem missing_metrics_yields_empty_witness :
    on_message "g/l/t/n/d" (.dict []) = .processed [] 0 :=
  missing_metrics_yields_empty "g/l/t/n/d" [] rfl

/-- Claim C7: `insert_metrics` on an empty metrics sequence builds zero rows,
opens zero store connections and returns normally. -/
theorem empty_metrics_no_connection (topic : String) :
    insert_metrics topic (.list []) = .ok ([], 0) := rfl

/-- Claim C9, at the failing inputs: when `Temp_data` exists but is empty,
the `HTTPException(404)` raised inside the try block is caught by the
generic `except Exception` handler and surfaces as a 500 — the same error
class as internal failures, not a distinct client error; when the table
does not exist the caller also gets a 500, distinguished only by its
detail text. -/
theorem latest_reading_error_classes :
    get_latest_temperature (.row Option.none)
        = .err 500 ("Internal Server Error: "
            ++ excStr (.httpExc 404 "No data found in Temp_data table.")) ∧
    get_latest_temperature .undefinedTable
        = .err 500 "The table Temp_data does not exist in QuestDB. Please create it." :=
  ⟨rfl, rfl⟩

/-- Claim C1: the end-to-end scenario — topic
"groupA/line1/press/nodeX/dev9" with the single metric
`{"name": "temp", "alias": 3, "value": 21.7, "timestamp": 1700000000}` —
produces exactly one stored row, with the five topic labels in order,
metric_name "temp", metric_alias 3, value 21.7 and ts 1700000000000, over
one store connection. -/
theorem end_to_end_single_row :
    on_message exTopic exPayload = .processed [exRow] 1 := by
  have hd : decodeTopic exTopic =
      ⟨some "groupA", some "line1", some "press", some "nodeX", some "dev9"⟩ := rfl
  simp [on_message, exPayload, exMetric, exRow, pyGetD, insert_metrics, pyIter,
        buildRows, buildRow, pyGet, mGet, List.lookup, pyFloat, pyMulNat, hd]
  norm_num

/-- Claim C3: whenever the metric's `timestamp` field holds the number `q`
and a row is built for the metric, that row's `ts` is exactly `q * 1000` —
the multiplication is exact on rationals, with no rounding. -/
theorem ts_scaled_exactly (d : Dims) (fs : List (String × PyVal)) (q : ℚ) (row : Row)
    (hts : mGet fs "timestamp" = .num q)
    (hrow : buildRow d (.dict fs) = .ok row) :
    row.ts = .num (q * 1000) := by
  simp only [buildRow, pyGet, hts, pyMulNat] at hrow
  split at hrow
  · exact absurd hrow (by simp)
  · simp only [Except.ok.injEq] at hrow
    rw [← hrow]
    simp

/-- Witness for C3 at the metric `{"timestamp": 2}`: the built row has
ts = 2000. -/
theorem ts_scaled_exactly_witness : wRowTs.ts = .num ((2 : ℚ) * 1000) := by
  have hrow : buildRow wDims (.dict [("timestamp", PyVal.num 2)]) = .ok wRowTs := by
    simp [buildRow, pyGet, mGet, List.lookup, pyMulNat, wDims, wRowTs]
    norm_num
  exact ts_scaled_exactly wDims [("timestamp", PyVal.num 2)] 2 wRowTs rfl hrow

/-- Evaluation of the string "12.5" under the float parser. -/
lemma pyParseFloat_125 : pyParseFloat "12.5" = some (12.5 : ℚ) := by
  have h0 : pyParseFloat "12.5"
      = some ((digitsVal ['1', '2'] : ℚ) + (digitsVal ['5'] : ℚ) / 10 ^ 1) := rfl
  have h1 : digitsVal ['1', '2'] = 12 := by decide
  have h2 : digitsVal ['5'] = 5 := by decide
  rw [h0, h1, h2]
  norm_num

/-- Claim C6: in any row successfully built for a metric, an absent (or
null) `value` field gives a null row value with no coercion performed,
while a `value` field holding a numeric-coercible string gives the parsed
rational. -/
theorem value_absent_or_coerced (d : Dims) (fs : List (String × PyVal)) (row : Row)
    (hrow : buildRow d (.dict fs) = .ok row) :
    (mGet fs "value" = PyVal.none → row.value = Option.none) ∧
    (∀ s q2, mGet fs "value" = .str s → pyParseFloat s = some q2 →
      row.value = some q2) := by
  constructor
  · intro hv
    simp only [buildRow, pyGet, hv] at hrow
    split at hrow
    · exact absurd hrow (by simp)
    · simp only [Except.ok.injEq] at hrow
      rw [← hrow]
  · intro s q2 hv hq
    simp only [buildRow, pyGet, hv, pyFloat, hq] at hrow
    split at hrow
    · exact absurd hrow (by simp)
    · simp only [Except.ok.injEq] at hrow
      rw [← hrow]

/-- Witness for C6 at the metric `{"value": "12.5", "timestamp": 1}`: the
built row's value is 12.5. -/
theorem value_absent_or_coerced_witness : wRow6.value = some (12.5 : ℚ) := by
  have hrow : buildRow wDims
      (.dict [("value", PyVal.str "12.5"), ("timestamp", PyVal.num 1)]) = .ok wRow6 := by
    simp [buildRow, pyGet, mGet, List.lookup, pyFloat, pyParseFloat_125, pyMulNat,
          wDims, wRow6]
  exact (value_absent_or_coerced wDims
    [("value", PyVal.str "12.5"), ("timestamp", PyVal.num 1)] wRow6 hrow).2
    "12.5" 12.5 rfl pyParseFloat_125

/-- A metric whose row construction raises anywhere in the list makes the
whole row-building loop raise. -/
lemma buildRows_error_of_mem (d : Dims) (metrics : List PyVal) (m : PyVal)
    (hm : m ∈ metrics) (e : PyErr) (hbad : buildRow d m = .error e) :
    ∃ e2, buildRows d metrics = .error e2 := by
  induction metrics with
  | nil => cases hm
  | cons x tl ih =>
      rcases List.mem_cons.mp hm with h | h
      · subst h
        exact ⟨e, by simp [buildRows, hbad]⟩
      · rcases hx : buildRow d x with e3 | r
        · exact ⟨e3, by simp [buildRows, hx]⟩
        · obtain ⟨e2, h2⟩ := ih h
          exact ⟨e2, by simp [buildRows, hx, h2]⟩

/-- Counterexample to claim C4 as stated: in a message whose first metric
is well formed and whose second metric has the non-numeric value "abc",
the ValueError aborts the whole `insert_metrics` call before any
connection is opened, `on_message` catches it, and the well-formed sibling
metric is NOT inserted — the whole batch is rejected. -/
theorem value_error_drops_siblings :
    on_message "a/b/c/d/e" mixedPayload = .caught .valueError := rfl

/-- Claim C4 as amended: a metric whose `value` (or any field evaluation)
raises during row building causes the whole message to be rejected — the
batch insert never happens, sibling metrics included; the error is then
caught and logged by `on_message`. -/
theorem value_error_rejects_whole_batch (topic : String) (metrics : List PyVal)
    (m : PyVal) (hm : m ∈ metrics) (e : PyErr)
    (hbad : buildRow (decodeTopic topic) m = .error e) :
    isInserted (insert_metrics topic (.list metrics)) = false := by
  obtain ⟨e2, h2⟩ := buildRows_error_of_mem (decodeTopic topic) metrics m hm e hbad
  simp [insert_metrics, pyIter, h2, isInserted]

/-- Witness for the amended C4 at a one-metric message whose value is the
non-numeric string "abc". -/
theorem value_error_rejects_whole_batch_witness :
    isInserted (insert_metrics "a/b/c/d/e"
      (.list [.dict [("value", .str "abc"), ("timestamp", .num 10)]])) = false :=
  value_error_rejects_whole_batch "a/b/c/d/e" _ _ (List.mem_cons_self _ _) .valueError rfl

/-- A leading connect attempt adds one to the connect count. -/
lemma countConnects_cons_connect (t : List CtEvent) :
    countConnects (CtEvent.connectAttempt :: t) = countConnects t + 1 := by
  simp [countConnects, List.countP_cons]

/-- A sleep event does not change the connect count. -/
lemma countConnects_cons_sleep (d : ℕ) (t : List CtEvent) :
    countConnects (CtEvent.sleep d :: t) = countConnects t := by
  simp [countConnects, List.countP_cons]

/-- When every attempt fails with OperationalError, the loop produces one
connect attempt followed by one sleep per remaining iteration and ends in
the fatal error. -/
lemma create_table_loop_all_op (outcomes : ℕ → AttemptResult) (delay : ℕ)
    (h : ∀ k, outcomes k = .opError) :
    ∀ remaining attempt, create_table_loop outcomes delay attempt remaining
      = ((List.replicate remaining [CtEvent.connectAttempt, CtEvent.sleep delay]).flatten,
         CtResult.fatalError) := by
  intro remaining
  induction remaining with
  | zero => intro attempt; rfl
  | succ k ih =>
      intro attempt
      simp [create_table_loop, h attempt, ih (attempt + 1), List.replicate_succ]

/-- The connect count of the all-OperationalError trace. -/
lemma countConnects_replicate (delay n : ℕ) :
    countConnects ((List.replicate n [CtEvent.connectAttempt, CtEvent.sleep delay]).flatten)
      = n := by
  induction n with
  | zero => rfl
  | succ k ih =>
      simp [List.replicate_succ, countConnects_cons_connect, countConnects_cons_sleep, ih]

/-- Claim C8: against an unreachable store (every attempt raises
OperationalError), `create_table` makes exactly `retries` connection
attempts, sleeping `delay` after each failed attempt, and then terminates
by raising the fatal startup error — no hang, no unbounded retry. -/
theorem schema_init_bounded_retry (outcomes : ℕ → AttemptResult) (retries delay : ℕ)
    (h : ∀ k, outcomes k = .opError) :
    create_table outcomes retries delay
      = ((List.replicate retries [CtEvent.connectAttempt, CtEvent.sleep delay]).flatten,
         CtResult.fatalError)
    ∧ countConnects (create_table outcomes retries delay).1 = retries := by
  have h1 := create_table_loop_all_op outcomes delay h retries 0
  refine ⟨h1, ?_⟩
  rw [create_table, h1]
  exact countConnects_replicate delay retries

/-- Witness for C8 at the default configuration retries=10, delay=5. -/
theorem schema_init_bounded_retry_witness :
    create_table (fun _ => AttemptResult.opError) 10 5
      = ((List.replicate 10 [CtEvent.connectAttempt, CtEvent.sleep 5]).flatten,
         CtResult.fatalError)
    ∧ countConnects (create_table (fun _ => AttemptResult.opError) 10 5).1 = 10 :=
  schema_init_bounded_retry (fun _ => .opError) 10 5 (fun _ => rfl)

/-- If the first `k` attempts raise OperationalError and attempt `k` raises
some other exception, the loop stops at once: the exception propagates and
exactly `k + 1` connection attempts were made. -/
lemma create_table_loop_propagates (outcomes : ℕ → AttemptResult) (delay : ℕ) :
    ∀ (k attempt remaining : ℕ), k < remaining →
      (∀ j, j < k → outcomes (attempt + j) = .opError) →
      outcomes (attempt + k) = .otherError →
      (create_table_loop outcomes delay attempt remaining).2 = .propagated ∧
      countConnects (create_table_loop outcomes delay attempt remaining).1 = k + 1 := by
  intro k
  induction k with
  | zero =>
      intro attempt remaining hk hpre hother
      obtain ⟨r, rfl⟩ : ∃ r, remaining = r + 1 := ⟨remaining - 1, by omega⟩
      have h0 : outcomes attempt = .otherError := by simpa using hother
      simp [create_table_loop, h0, countConnects]
  | succ n ih =>
      intro attempt remaining hk hpre hother
      obtain ⟨r, rfl⟩ : ∃ r, remaining = r + 1 := ⟨remaining - 1, by omega⟩
      have h0 : outcomes attempt = .opError := by simpa using hpre 0 (Nat.succ_pos n)
      have hpre2 : ∀ j, j < n → outcomes (attempt + 1 + j) = .opError := by
        intro j hj
        have h3 := hpre (j + 1) (by omega)
        have h4 : attempt + (j + 1) = attempt + 1 + j := by omega
        rwa [h4] at h3
      have hother2 : outcomes (attempt + 1 + n) = .otherError := by
        have h4 : attempt + (n + 1) = attempt + 1 + n := by omega
        rwa [h4] at hother
      have ihh := ih (attempt + 1) r (by omega) hpre2 hother2
      refine ⟨?_, ?_⟩
      · simp [create_table_loop, h0, ihh.1]
      · simp [create_table_loop, h0, countConnects_cons_connect,
              countConnects_cons_sleep, ihh.2]

/-- Claim C10: only OperationalError triggers the retry-with-delay loop in
`create_table`; any other exception raised while creating the table
propagates immediately — after the first `k` attempts failed with
OperationalError, a different exception at attempt `k` leaves the loop
with exactly `k + 1` connection attempts made, consuming none of the
remaining retry budget. -/
theorem non_operational_error_propagates (outcomes : ℕ → AttemptResult)
    (retries delay k : ℕ) (hk : k < retries)
    (hpre : ∀ j, j < k → outcomes j = .opError)
    (hother : outcomes k = .otherError) :
    (create_table outcomes retries delay).2 = .propagated ∧
    countConnects (create_table outcomes retries delay).1 = k + 1 := by
  have h := create_table_loop_propagates outcomes delay k 0 retries hk
      (fun j hj => by simpa using hpre j hj) (by simpa using hother)
  exact h

/-- Witness for C10: two OperationalErrors then a different exception, with
retries=10, delay=5 — 3 attempts, then propagation. -/
theorem non_operational_error_propagates_witness :
    (create_table (fun j => if j < 2 then AttemptResult.opError else .otherError) 10 5).2
        = CtResult.propagated ∧
    countConnects
      (create_table (fun j => if j < 2 then AttemptResult.opError else .otherError) 10 5).1
        = 3 :=
  non_operational_error_propagates _ 10 5 2 (by omega)
    (fun j hj => by simp [hj]) (by norm_num)
